import Mathlib

/-!
# Verification of the RPS helper worker (`src/rps_helper.js`)

A shallow embedding of the distributed session-claim-and-play coordinator of
the RPS helper bot, together with theorems settling the frozen claims about
its specification.

Modelling conventions:
* JavaScript strings become `String`; numeric identifiers (Telegram user ids,
  chat ids, session ids) become `Nat` — every comparison in the source goes
  through `String(x)`, which is injective on these values, so `Nat` equality
  is faithful.
* Nullable / possibly-absent fields become `Option`; JavaScript truthiness on
  such string fields (`!gameState[playerKey]`, `username`, `first_name`) is
  `jsFalsy` below (`null`/`undefined`/`""` are falsy, every other string is
  truthy).
* The global `Map` `activeHelperGames` becomes an association list `GameMap`
  observed only through `get`/`set`/`delete` (iteration order is never used
  by the source), so `setGame` places the fresh binding in front and drops
  the stale one.
* Asynchronous effects are modelled as oracle inputs and recorded outputs:
  the success of a database write is a `Bool` parameter (`writeOk`), the
  random bot draw is a `Fin 3` index into the choice array, and the
  transport side effects (message edits, callback acknowledgements) are
  either dropped or recorded (`ack`).  Each handler invocation is one
  atomic step, matching the single-threaded event-loop model of the source.
* `session.timeoutId` models the *live* timer for the session: `some ctx`
  means a single-shot task armed with expiry context `ctx` is pending, and
  `clearTimeout` makes it `none` (the source keeps the dead handle in the
  field, but a cancelled handle has no further observable effect).
-/

/-- JavaScript truthiness test for a nullable string field:
`null`/`undefined` (here `none`) and the empty string are falsy. -/
def jsFalsy : Option String → Bool
  | none => true
  | some s => s = ""

/-- JavaScript truthiness, the positive form. -/
def jsTruthy (o : Option String) : Bool := ! jsFalsy o

/-- Models `String.prototype.toLowerCase()` as the character-wise lowercase
map (the semantics of `String.toLower`, stated directly on the character
list so the kernel can evaluate it).  On the strings relevant to the program
(ASCII action tags and choice keys) JavaScript and Lean lowercase agree
character by character. -/
def jsToLower (s : String) : String := ⟨s.data.map Char.toLower⟩

/-- `Object.values(RPS_CHOICES)`, in source order: rock, paper, scissors. -/
def RPS_CHOICES : List String := ["rock", "paper", "scissors"]

/-- `RPS_RULES[c].beats`: the choice that `c` defeats, `none` off the table. -/
def rpsBeats : String → Option String
  | "rock" => some "scissors"
  | "paper" => some "rock"
  | "scissors" => some "paper"
  | _ => none

/-- `RPS_RULES[c].verb`. -/
def rpsVerb : String → String
  | "rock" => "crushes"
  | "paper" => "covers"
  | "scissors" => "cuts"
  | _ => ""

/-- `RPS_EMOJIS[c]`. -/
def rpsEmoji : String → String
  | "rock" => "🪨"
  | "paper" => "📄"
  | "scissors" => "✂️"
  | _ => ""

/-- `getRandomRPSChoice()`: the random draw `Math.floor(Math.random() * 3)`
is exposed as an oracle index into `Object.values(RPS_CHOICES)`. -/
def getRandomRPSChoice (i : Fin 3) : String := RPS_CHOICES.getD i.val ""

/-- The value returned by `determineRPSOutcome` (its `result` and
`description` fields; the source also echoes the choices in some flows, which
no claim touches). -/
structure RPSOutcome where
  result : String
  description : String
deriving DecidableEq, Repr

/-- `determineRPSOutcome(player1ChoiceKey, player2ChoiceKey, player1NameHtml,
player2NameHtml)`.  The source gives the two name parameters defaults
`"Player 1"` / `"Player 2"`; every call site of interest passes them
explicitly, so they are plain parameters here. -/
def determineRPSOutcome (player1ChoiceKey player2ChoiceKey player1NameHtml player2NameHtml : String) :
    RPSOutcome :=
  if ¬ (jsToLower player1ChoiceKey ∈ RPS_CHOICES) ∨ ¬ (jsToLower player2ChoiceKey ∈ RPS_CHOICES) then
    ⟨"error", "An internal error occurred."⟩
  else if jsToLower player1ChoiceKey = jsToLower player2ChoiceKey then
    ⟨"draw", "It\x27s a Draw!"⟩
  else if rpsBeats (jsToLower player1ChoiceKey) = some (jsToLower player2ChoiceKey) then
    ⟨"win_player1",
      player1NameHtml ++ "\x27s " ++ rpsEmoji (jsToLower player1ChoiceKey) ++ " " ++
        rpsVerb (jsToLower player1ChoiceKey) ++ " " ++ rpsEmoji (jsToLower player2ChoiceKey) ++ "!"⟩
  else
    ⟨"win_player2",
      player2NameHtml ++ "\x27s " ++ rpsEmoji (jsToLower player2ChoiceKey) ++ " " ++
        rpsVerb (jsToLower player2ChoiceKey) ++ " " ++ rpsEmoji (jsToLower player1ChoiceKey) ++ "!"⟩

/-- The "beats" relation exactly as the specification words it: rock beats
scissors, scissors beats paper, paper beats rock.  (Spec-side definition,
to be compared with the source table `rpsBeats`.) -/
def specBeats (a b : String) : Prop :=
  (a, b) ∈ [("rock", "scissors"), ("scissors", "paper"), ("paper", "rock")]

instance (a b : String) : Decidable (specBeats a b) := by
  unfold specBeats; infer_instance

/-- `escapeHTML` applied to one character (the five chained `.replace` calls
of the source commute with per-character processing because no entity text
contains a character a later pass rewrites). -/
def escapeHTMLChar (c : Char) : String :=
  if c = '&' then "&amp;"
  else if c = '<' then "&lt;"
  else if c = '>' then "&gt;"
  else if c = '"' then "&quot;"
  else if c = '\x27' then "&#039;"
  else String.singleton c

/-- `escapeHTML(text)` on an actual string (the source additionally maps
`null`/`undefined` to `""`, a case that never reaches the call sites modelled
here). -/
def escapeHTML (text : String) : String :=
  String.join (text.data.map escapeHTMLChar)

/-- The fields of `callbackQuery.from` the source reads. -/
structure TgUser where
  id : Nat
  username : Option String
  first_name : Option String
deriving DecidableEq, Repr

/-- `String(n).slice(-4)`: the last four characters (the whole string when
shorter). -/
def jsSliceLast4 (s : String) : String :=
  ⟨s.data.drop (s.data.length - 4)⟩

/-- `getPlayerDisplayReference(userObject)`.  In the callback flow the user
object always carries `id` (the `telegram_id` fallback of the source is for
row-shaped objects and is unreachable here). -/
def getPlayerDisplayReference (userObject : Option TgUser) : String :=
  match userObject with
  | none => "Mystery Player"
  | some u =>
    if jsTruthy u.username then "@" ++ u.username.getD ""
    else if jsTruthy u.first_name then u.first_name.getD ""
    else "Player " ++ jsSliceLast4 (toString u.id)

/-- The `game_state_json` blob, with the fields the source reads or writes.
`p1_choice` / `p2_choice` / `bot_choice` are absent (`none`) until set. -/
structure GameState where
  status : String
  initiatorName : String
  opponentName : String
  helperMessageId : Nat
  p1_choice : Option String
  p2_choice : Option String
  bot_choice : Option String
deriving DecidableEq, Repr

/-- An in-memory session: the database row mirrored in `activeHelperGames`
plus the worker-local fields (`timeoutId`, the mutable blob). -/
structure Session where
  session_id : Nat
  chat_id : Nat
  initiator_id : Nat
  opponent_id : Option Nat
  timeoutId : Option String
  game_state_json : GameState
deriving DecidableEq, Repr

/-- The in-memory session table `activeHelperGames`, observed only through
get/set/delete. -/
def GameMap := List (Nat × Session)
deriving DecidableEq

/-- `activeHelperGames.get(key)`. -/
def lookupGame : GameMap → Nat → Option Session
  | [], _ => none
  | (k, v) :: rest, key => if k = key then some v else lookupGame rest key

/-- `activeHelperGames.delete(key)`. -/
def delGame (m : GameMap) (key : Nat) : GameMap :=
  List.filter (fun p => p.1 != key) m

/-- `activeHelperGames.set(key, v)` (fresh binding in front; the source never
iterates the map, so ordering is unobservable). -/
def setGame (m : GameMap) (key : Nat) (v : Session) : GameMap :=
  (key, v) :: delGame m key

/-- Result of one finalize / timeout step: the new in-memory table, the
`UPDATE rps_sessions SET status = …, game_state_json = …` the step issued
(`none` when no write was attempted), and whether that write committed. -/
structure FinOutcome where
  games : GameMap
  attempted : Option (String × GameState)
  persisted : Bool
deriving DecidableEq

/-- `finalizeAndRecordOutcome(sessionId, finalStatus, finalGameState)`.
The database write is the first statement of the `try` block and
`activeHelperGames.delete(sessionId)` is the second: when the write throws
(`writeOk = false`) control jumps to the `catch`, so the delete is skipped
and the table is left as it was. -/
def finalizeAndRecordOutcome (writeOk : Bool) (games : GameMap) (sessionId : Nat)
    (finalStatus : String) (finalGameState : GameState) : FinOutcome :=
  if writeOk then
    ⟨delGame games sessionId, some (finalStatus, finalGameState), true⟩
  else
    ⟨games, some (finalStatus, finalGameState), false⟩

/-- `handleGameTimeout(sessionId, context)`: bail out when the session is no
longer in memory, otherwise finalize with the terminal status fixed by the
`context` string the timer was armed with.  The current
`game_state_json.status` is never consulted. -/
def handleGameTimeout (writeOk : Bool) (games : GameMap) (sessionId : Nat)
    (context : String) : FinOutcome :=
  match lookupGame games sessionId with
  | none => ⟨games, none, false⟩
  | some session =>
    if context = "offer" then
      finalizeAndRecordOutcome writeOk games sessionId "completed_timeout" session.game_state_json
    else if context = "pvb_player_turn" then
      finalizeAndRecordOutcome writeOk games sessionId "completed_bot_win" session.game_state_json
    else if context = "pvp_choices" then
      finalizeAndRecordOutcome writeOk games sessionId "completed_push" session.game_state_json
    else ⟨games, none, false⟩

/-- `runRPSPvB(session)`: set the blob status, store the session, and arm the
`pvb_player_turn` timer (the message edit is a transport side effect). -/
def runRPSPvB (games : GameMap) (session : Session) : GameMap :=
  let gs := { session.game_state_json with status := "pvb_awaiting_player_choice" }
  setGame games session.session_id
    { session with game_state_json := gs, timeoutId := some "pvb_player_turn" }

/-- `runRPSPvP(session)`: set the blob status, reset both choice fields to
`null`, store the session, and arm the `pvp_choices` timer (message edit and
the two DMs are transport side effects). -/
def runRPSPvP (games : GameMap) (session : Session) : GameMap :=
  let gs := { session.game_state_json with
                status := "pvp_awaiting_choices", p1_choice := none, p2_choice := none }
  setGame games session.session_id
    { session with game_state_json := gs, timeoutId := some "pvp_choices" }

/-- The inline `finalStatus` computation of the `rps_helper_pvb_choice`
branch: anything that is neither a player-1 win nor a draw — including the
`error` result — becomes `completed_bot_win`. -/
def pvbFinalStatus (res : String) : String :=
  if res = "win_player1" then "completed_p1_win"
  else if res = "draw" then "completed_push"
  else "completed_bot_win"

/-- The inline `finalStatus` computation of the `rps_helper_pvp_submit`
branch: anything that is neither a player-1 nor a player-2 win — including
the `error` result — becomes `completed_push`. -/
def pvpFinalStatus (res : String) : String :=
  if res = "win_player1" then "completed_p1_win"
  else if res = "win_player2" then "completed_p2_win"
  else "completed_push"

/-- Result of one `callback_query` handler invocation: the new in-memory
table, the finalize write issued (if any) and its fate, and the text handed
to `answerCallbackQuery` (`some ""` for a plain acknowledgement, `none` when
the branch chain falls through without answering). -/
structure HandlerResult where
  games : GameMap
  attempted : Option (String × GameState)
  persisted : Bool
  ack : Option String
deriving DecidableEq

/-- The `bot.on('callback_query', …)` handler.  The inputs are the
destructured callback data `action:sessionId:param` (the source splits
`callbackQuery.data` on `:`), the clicking user, the oracle index for
`getRandomRPSChoice`, and the write oracle.  `clickerId` is
`String(callbackQuery.from.id)`; all identifier comparisons go through
`String(…)` in the source, which `Nat` equality models faithfully. -/
def handleCallback (games : GameMap) (action : String) (sessionId : Nat) (param : String)
    (clicker : TgUser) (botRand : Fin 3) (writeOk : Bool) : HandlerResult :=
  match lookupGame games sessionId with
  | none => ⟨games, none, false, some "This game is no longer active."⟩
  | some s0 =>
    -- `if (session.timeoutId) clearTimeout(session.timeoutId);` — the live
    -- timer dies before any authorization check.
    let s1 : Session := { s0 with timeoutId := none }
    let games1 := setGame games sessionId s1
    let gameState := s1.game_state_json
    if action = "cf_helper_cancel" ∧ clicker.id = s1.initiator_id then
      let fin := finalizeAndRecordOutcome writeOk games1 sessionId "completed_cancelled" gameState
      ⟨fin.games, fin.attempted, fin.persisted, some ""⟩
    else if action = "cf_helper_accept_bot" ∧ clicker.id = s1.initiator_id then
      ⟨runRPSPvB games1 s1, none, false, some ""⟩
    else if action = "cf_helper_accept_pvp" ∧ clicker.id ≠ s1.initiator_id then
      let s2 : Session := { s1 with
        opponent_id := some clicker.id,
        game_state_json :=
          { gameState with opponentName := getPlayerDisplayReference (some clicker) } }
      ⟨runRPSPvP games1 s2, none, false, some ""⟩
    else if action = "cf_helper_accept_direct" ∧ some clicker.id = s1.opponent_id then
      ⟨runRPSPvP games1 s1, none, false, some ""⟩
    else if action = "cf_helper_decline_direct" ∧ some clicker.id = s1.opponent_id then
      let fin := finalizeAndRecordOutcome writeOk games1 sessionId "completed_cancelled" gameState
      ⟨fin.games, fin.attempted, fin.persisted, some ""⟩
    else if action = "rps_helper_pvb_choice" then
      if clicker.id = s1.initiator_id then
        let playerChoice := param
        let botChoice := getRandomRPSChoice botRand
        let outcome := determineRPSOutcome playerChoice botChoice gameState.initiatorName "Bot"
        let fin := finalizeAndRecordOutcome writeOk games1 sessionId (pvbFinalStatus outcome.result)
          { gameState with p1_choice := some playerChoice, bot_choice := some botChoice }
        ⟨fin.games, fin.attempted, fin.persisted, some ""⟩
      else ⟨games1, none, false, none⟩
    else if action = "rps_helper_pvp_submit" then
      let choice := param
      let playerKey : Option String :=
        if clicker.id = s1.initiator_id then some "p1_choice"
        else if some clicker.id = s1.opponent_id then some "p2_choice"
        else none
      match playerKey with
      | some key =>
        if jsFalsy (if key = "p1_choice" then gameState.p1_choice else gameState.p2_choice) then
          let gs2 :=
            if key = "p1_choice" then { gameState with p1_choice := some choice }
            else { gameState with p2_choice := some choice }
          let s2 : Session := { s1 with game_state_json := gs2 }
          let games2 := setGame games1 sessionId s2
          if jsTruthy gs2.p1_choice ∧ jsTruthy gs2.p2_choice then
            let outcome := determineRPSOutcome (gs2.p1_choice.getD "") (gs2.p2_choice.getD "")
              (escapeHTML gs2.initiatorName) (escapeHTML gs2.opponentName)
            let fin := finalizeAndRecordOutcome writeOk games2 sessionId
              (pvpFinalStatus outcome.result) gs2
            ⟨fin.games, fin.attempted, fin.persisted, some "Your choice is locked in!"⟩
          else ⟨games2, none, false, some "Your choice is locked in!"⟩
        else ⟨games1, none, false, some "You have already made a choice."⟩
      | none => ⟨games1, none, false, some "You have already made a choice."⟩
    else ⟨games1, none, false, none⟩

/-- A row of the `rps_sessions` table, with the columns the worker reads. -/
structure DbRow where
  session_id : Nat
  main_bot_game_id : String
  status : String
  helper_bot_id : Option String
  chat_id : Nat
  initiator_id : Nat
  opponent_id : Option Nat
  game_state_json : GameState
deriving DecidableEq

/-- The conditional claim
`UPDATE rps_sessions SET status = 'in_progress', helper_bot_id = $1
 WHERE main_bot_game_id = $2 AND status = 'pending_pickup' RETURNING *`:
returns the updated table together with the rows the update touched. -/
def claimUpdate (db : List DbRow) (botId : String) (gameId : String) :
    List DbRow × List DbRow :=
  let rowQualifies := fun (r : DbRow) =>
    r.main_bot_game_id = gameId ∧ r.status = "pending_pickup"
  let updated := fun (r : DbRow) =>
    { r with status := "in_progress", helper_bot_id := some botId }
  (db.map (fun r => if rowQualifies r then updated r else r),
   (db.filter (fun r => decide (rowQualifies r))).map updated)

/-- `sessionRes.rows[0]` loaded into the in-memory shape (`timeoutId` is a
worker-local field, absent on a fresh row). -/
def rowToSession (r : DbRow) : Session :=
  ⟨r.session_id, r.chat_id, r.initiator_id, r.opponent_id, none, r.game_state_json⟩

/-- Modelled from the spec: `runUnifiedOffer` is called by
`handleNewGameSession` (src/rps_helper.js line 223) but not defined anywhere
under `src/`.  Per §4.2 of the specification, offer mode enters the waiting
state `awaiting_offer_response` and the supervisor timeout for this state
resolves to `completed_timeout`, i.e. the timer is armed with the `offer`
expiry context of `handleGameTimeout`. -/
def runUnifiedOffer (games : GameMap) (session : Session) : GameMap :=
  let gs := { session.game_state_json with status := "awaiting_offer_response" }
  setGame games session.session_id
    { session with game_state_json := gs, timeoutId := some "offer" }

/-- Modelled from the spec: `runDirectChallenge` is called by
`handleNewGameSession` (src/rps_helper.js line 221) but not defined anywhere
under `src/`.  Per §4.2 of the specification, direct-challenge mode enters
the waiting state `awaiting_direct_response`; §9 records that, unlike the
unified offer, this mode observably lacks an explicit timeout, so no timer
is armed. -/
def runDirectChallenge (games : GameMap) (session : Session) : GameMap :=
  let gs := { session.game_state_json with status := "awaiting_direct_response" }
  setGame games session.session_id { session with game_state_json := gs }

/-- `handleNewGameSession(mainBotGameId)`: one transaction around the
conditional claim.  Zero affected rows rolls back and returns silently
(table and memory untouched); otherwise the transaction commits, the first
returned row is loaded into `activeHelperGames`, and the session enters
direct-challenge mode when `opponent_id` is set, unified-offer mode when it
is not. -/
def handleNewGameSession (db : List DbRow) (games : GameMap) (botId : String)
    (gameId : String) : List DbRow × GameMap :=
  let res := claimUpdate db botId gameId
  match res.2 with
  | [] => (db, games)
  | row :: _ =>
    let s := rowToSession row
    let games1 := setGame games s.session_id s
    match s.opponent_id with
    | some _ => (res.1, runDirectChallenge games1 s)
    | none => (res.1, runUnifiedOffer games1 s)

/-! ## Concrete fixtures

Small concrete sessions used by counterexamples and witnesses.  User `100`
is the initiator, user `200` the fixed opponent, user `300` a bystander. -/

def sampleInitiator : TgUser := ⟨100, some "alice", some "Alice"⟩

def sampleOpponent : TgUser := ⟨200, none, some "Bob"⟩

def sampleBystander : TgUser := ⟨300, none, none⟩

/-- A pvp game awaiting both choices (none submitted yet). -/
def sampleGS : GameState := ⟨"pvp_awaiting_choices", "Alice", "Bob", 10, none, none, none⟩

def sampleSession : Session := ⟨1, 5, 100, some 200, some "pvp_choices", sampleGS⟩

def sampleGames : GameMap := [(1, sampleSession)]

/-- A pvp game in which only the initiator has locked a choice in. -/
def samplePvpOneGS : GameState :=
  ⟨"pvp_awaiting_choices", "Alice", "Bob", 10, some "rock", none, none⟩

def samplePvpOneSession : Session := ⟨2, 5, 100, some 200, some "pvp_choices", samplePvpOneGS⟩

def samplePvpOneGames : GameMap := [(2, samplePvpOneSession)]

/-- A pvb game awaiting the player choice. -/
def samplePvbGS : GameState :=
  ⟨"pvb_awaiting_player_choice", "Alice", "", 10, none, none, none⟩

def samplePvbSession : Session := ⟨3, 5, 100, none, some "pvb_player_turn", samplePvbGS⟩

def samplePvbGames : GameMap := [(3, samplePvbSession)]

/-- A pending database row with no fixed opponent. -/
def sampleOfferGS : GameState := ⟨"offer", "Alice", "", 10, none, none, none⟩

def sampleRow : DbRow := ⟨7, "G1", "pending_pickup", none, 5, 100, none, sampleOfferGS⟩

def sampleDb : List DbRow := [sampleRow]

/-- `sampleRow` as the conditional claim update returns it. -/
def sampleClaimedRow : DbRow :=
  { sampleRow with status := "in_progress", helper_bot_id := some "BOT7" }

def sampleClaimedSession : Session := rowToSession sampleClaimedRow

/-! ## Helper lemmas -/

theorem lookupGame_delGame_self (m : GameMap) (key : Nat) :
    lookupGame (delGame m key) key = none := by
  induction m with
  | nil => rfl
  | cons p rest ih =>
    rcases p with ⟨k, v⟩
    by_cases h : k = key
    · simpa [delGame, List.filter_cons, h] using ih
    · simpa [delGame, List.filter_cons, h, lookupGame] using ih

theorem lookupGame_setGame_self (m : GameMap) (key : Nat) (v : Session) :
    lookupGame (setGame m key v) key = some v := by
  simp [setGame, lookupGame]

theorem determineRPSOutcome_result_name_indep (a b n1 n2 m1 m2 : String) :
    (determineRPSOutcome a b n1 n2).result = (determineRPSOutcome a b m1 m2).result := by
  unfold determineRPSOutcome
  split
  · rfl
  · split
    · rfl
    · split <;> rfl

/-! ## Claims -/

/-- C1: for every pair of choices drawn from the closed set
{rock, paper, scissors}, the Outcome Resolver returns `draw` exactly when the
two choices are equal, `win_player1` exactly when the first choice beats the
second under the fixed cyclic relation (rock beats scissors, scissors beats
paper, paper beats rock), and `win_player2` otherwise; in particular
verdict(rock, scissors) is a win for the initiator, verdict(paper, paper) is
a draw, and verdict(scissors, rock) is a win for the opponent. -/
theorem claim_C1 (a b n1 n2 : String) (ha : a ∈ RPS_CHOICES) (hb : b ∈ RPS_CHOICES) :
    ((determineRPSOutcome a b n1 n2).result = "draw" ↔ a = b) ∧
    ((determineRPSOutcome a b n1 n2).result = "win_player1" ↔ specBeats a b) ∧
    ((determineRPSOutcome a b n1 n2).result = "win_player2" ↔ (a ≠ b ∧ ¬ specBeats a b)) ∧
    (determineRPSOutcome "rock" "scissors" n1 n2).result = "win_player1" ∧
    (determineRPSOutcome "paper" "paper" n1 n2).result = "draw" ∧
    (determineRPSOutcome "scissors" "rock" n1 n2).result = "win_player2" := by
  rw [determineRPSOutcome_result_name_indep a b n1 n2 "A" "B",
      determineRPSOutcome_result_name_indep "rock" "scissors" n1 n2 "A" "B",
      determineRPSOutcome_result_name_indep "paper" "paper" n1 n2 "A" "B",
      determineRPSOutcome_result_name_indep "scissors" "rock" n1 n2 "A" "B"]
  simp only [RPS_CHOICES, List.mem_cons, List.not_mem_nil, or_false] at ha hb
  rcases ha with rfl | rfl | rfl <;> rcases hb with rfl | rfl | rfl <;> decide

/-- Witness for C1 at the concrete pair (rock, scissors). -/
theorem claim_C1_witness :
    (determineRPSOutcome "rock" "scissors" "P1" "P2").result = "win_player1" :=
  (claim_C1 "rock" "scissors" "P1" "P2" (by decide) (by decide)).2.2.2.1

/-- C10: the Outcome Resolver's `result` field is antisymmetric under
swapping the two choices — for every pair of valid choices `a` and `b`,
verdict(a, b) is `win_player1` exactly when verdict(b, a) is `win_player2`,
and verdict(a, b) is `draw` exactly when verdict(b, a) is `draw`; moreover
the `result` field depends only on the two choices, never on the
display-name parameters. -/
theorem claim_C10 (a b n1 n2 m1 m2 : String)
    (ha : a ∈ RPS_CHOICES) (hb : b ∈ RPS_CHOICES) :
    ((determineRPSOutcome a b n1 n2).result = "win_player1" ↔
      (determineRPSOutcome b a n1 n2).result = "win_player2") ∧
    ((determineRPSOutcome a b n1 n2).result = "draw" ↔
      (determineRPSOutcome b a n1 n2).result = "draw") ∧
    (determineRPSOutcome a b n1 n2).result = (determineRPSOutcome a b m1 m2).result := by
  refine ⟨?_, ?_, determineRPSOutcome_result_name_indep a b n1 n2 m1 m2⟩ <;>
  · rw [determineRPSOutcome_result_name_indep a b n1 n2 "A" "B",
        determineRPSOutcome_result_name_indep b a n1 n2 "A" "B"]
    simp only [RPS_CHOICES, List.mem_cons, List.not_mem_nil, or_false] at ha hb
    rcases ha with rfl | rfl | rfl <;> rcases hb with rfl | rfl | rfl <;> decide

/-- Witness for C10 at the concrete pair (rock, scissors). -/
theorem claim_C10_witness :
    (determineRPSOutcome "rock" "scissors" "x" "y").result = "win_player1" ↔
      (determineRPSOutcome "scissors" "rock" "x" "y").result = "win_player2" :=
  (claim_C10 "rock" "scissors" "x" "y" "u" "v" (by decide) (by decide)).1

/-- C2 counterexample: the claim says finalize evicts the session from the
in-memory table whether or not the write succeeded, so after any call the
session is absent.  In the source the `delete` is the statement *after* the
`await pool.query(…)` inside the same `try`, so a failing write jumps to the
`catch` and skips the eviction: finalizing session 1 with a failing write
leaves it in the table. -/
theorem claim_C2_counterexample :
    lookupGame (finalizeAndRecordOutcome false sampleGames 1 "completed_push" sampleGS).games 1
      = some sampleSession := by decide

/-- C2 amended: finalize attempts the single terminal write, and evicts the
session from the in-memory table only when that write succeeds; when the
write fails the table is left unchanged, still holding the session. -/
theorem claim_C2_amended (writeOk : Bool) (games : GameMap) (sid : Nat)
    (st : String) (gs : GameState) :
    (finalizeAndRecordOutcome writeOk games sid st gs).attempted = some (st, gs) ∧
    (writeOk = true →
      lookupGame (finalizeAndRecordOutcome writeOk games sid st gs).games sid = none) ∧
    (writeOk = false →
      (finalizeAndRecordOutcome writeOk games sid st gs).games = games) := by
  cases writeOk <;>
    simp [finalizeAndRecordOutcome, lookupGame_delGame_self]

/-- Witness for the amended C2: a successful finalize does evict. -/
theorem claim_C2_amended_witness :
    lookupGame (finalizeAndRecordOutcome true sampleGames 1 "completed_push" sampleGS).games 1
      = none :=
  (claim_C2_amended true sampleGames 1 "completed_push" sampleGS).2.1 rfl

/-- C3 counterexample: the claim says an expiring timer forces the terminal
transition only after re-checking that the session is still in the waiting
sub-state the timer was armed for, and is a no-op when the session advanced.
`handleGameTimeout` only re-checks presence and then branches on the armed
`context` string, never on the current `game_state_json.status`: a session
that advanced to `pvp_awaiting_choices` is still finalized as
`completed_timeout` when an `offer`-context timer fires. -/
theorem claim_C3_counterexample :
    sampleSession.game_state_json.status = "pvp_awaiting_choices" ∧
    (handleGameTimeout true sampleGames 1 "offer").attempted
      = some ("completed_timeout", sampleGS) ∧
    lookupGame (handleGameTimeout true sampleGames 1 "offer").games 1 = none := by decide

/-- C3 amended: on expiry only presence in memory is re-checked — if the
session was evicted the expiry changes no state and performs no finalize,
but a session still present is finalized with the terminal status fixed by
the armed context even when it has advanced to a different sub-state. -/
theorem claim_C3_amended (writeOk : Bool) (games : GameMap) (sid : Nat) (ctx : String) :
    (lookupGame games sid = none →
      handleGameTimeout writeOk games sid ctx = ⟨games, none, false⟩) ∧
    (∀ s, lookupGame games sid = some s →
      (handleGameTimeout writeOk games sid "offer").attempted
        = some ("completed_timeout", s.game_state_json) ∧
      (handleGameTimeout writeOk games sid "pvb_player_turn").attempted
        = some ("completed_bot_win", s.game_state_json) ∧
      (handleGameTimeout writeOk games sid "pvp_choices").attempted
        = some ("completed_push", s.game_state_json)) := by
  constructor
  · intro h
    simp [handleGameTimeout, h]
  · intro s h
    refine ⟨?_, ?_, ?_⟩ <;>
      cases writeOk <;> simp [handleGameTimeout, h, finalizeAndRecordOutcome]

/-- Witness for the amended C3: an evicted session makes the expiry a no-op. -/
theorem claim_C3_amended_witness :
    handleGameTimeout true [] 1 "offer" = ⟨[], none, false⟩ :=
  (claim_C3_amended true [] 1 "offer").1 rfl

/-- C6: a timeout expiring for a session still in its waiting sub-state
always produces the fixed mode-specific terminal status — `completed_timeout`
for an open offer, `completed_bot_win` for a pvb game awaiting the player
choice, and `completed_push` for a pvp game awaiting choices.  The session
`s` is arbitrary, in particular its `p1_choice`/`p2_choice` fields, so the
pvp case holds whether zero, one or both choices were already locked in: a
lone submitted choice never determines a winner. -/
theorem claim_C6 (writeOk : Bool) (games : GameMap) (sid : Nat) (s : Session)
    (h : lookupGame games sid = some s) :
    (s.game_state_json.status = "awaiting_offer_response" →
      (handleGameTimeout writeOk games sid "offer").attempted
        = some ("completed_timeout", s.game_state_json)) ∧
    (s.game_state_json.status = "pvb_awaiting_player_choice" →
      (handleGameTimeout writeOk games sid "pvb_player_turn").attempted
        = some ("completed_bot_win", s.game_state_json)) ∧
    (s.game_state_json.status = "pvp_awaiting_choices" →
      (handleGameTimeout writeOk games sid "pvp_choices").attempted
        = some ("completed_push", s.game_state_json)) := by
  refine ⟨fun _ => ?_, fun _ => ?_, fun _ => ?_⟩ <;>
    cases writeOk <;> simp [handleGameTimeout, h, finalizeAndRecordOutcome]

/-- Witness for C6: a pvp session with one choice locked in still times out
to `completed_push`. -/
theorem claim_C6_witness :
    samplePvpOneGS.p1_choice = some "rock" ∧ samplePvpOneGS.p2_choice = none ∧
    (handleGameTimeout true samplePvpOneGames 2 "pvp_choices").attempted
      = some ("completed_push", samplePvpOneGS) :=
  ⟨rfl, rfl, (claim_C6 true samplePvpOneGames 2 samplePvpOneSession rfl).2.2 rfl⟩

/-- C4 counterexample: the claim says that once a session has left a
sub-state, no action defined for the earlier sub-state (such as cancel-offer
or accept-bot) can be applied to it again.  The handler guards these actions
only by actor identity, never by the current sub-state: on a session already
in `pvp_awaiting_choices` the initiator can still apply cancel-offer (the
session finalizes as `completed_cancelled`) and accept-bot (the status
regresses to `pvb_awaiting_player_choice`). -/
theorem claim_C4_counterexample :
    sampleSession.game_state_json.status = "pvp_awaiting_choices" ∧
    (handleCallback sampleGames "cf_helper_cancel" 1 "" sampleInitiator 0 true).attempted
      = some ("completed_cancelled", sampleGS) ∧
    (lookupGame (handleCallback sampleGames "cf_helper_accept_bot" 1 "" sampleInitiator 0 true).games
        1).map (fun t => t.game_state_json.status)
      = some "pvb_awaiting_player_choice" := by decide

/-- C4 amended: the action callbacks are guarded only by actor identity, not
by the current sub-state, so offer-stage actions stay applicable after the
session has advanced: whenever the clicker is the initiator, cancel-offer
finalizes the session as `completed_cancelled` and accept-bot moves it to
`pvb_awaiting_player_choice`, whatever sub-state it is in — the status graph
is not enforced and can regress. -/
theorem claim_C4_amended (games : GameMap) (sid : Nat) (s : Session) (u : TgUser)
    (p : String) (r : Fin 3) (w : Bool)
    (h : lookupGame games sid = some s) (hs : s.session_id = sid)
    (hu : u.id = s.initiator_id) :
    (handleCallback games "cf_helper_cancel" sid p u r w).attempted
      = some ("completed_cancelled", s.game_state_json) ∧
    (lookupGame (handleCallback games "cf_helper_accept_bot" sid p u r w).games sid).map
        (fun t => t.game_state_json.status) = some "pvb_awaiting_player_choice" := by
  constructor
  · cases w <;> simp [handleCallback, h, hu, finalizeAndRecordOutcome]
  · simp [handleCallback, h, hu, runRPSPvB, hs, lookupGame_setGame_self]

/-- Witness for the amended C4 on a session that already advanced to pvp
play. -/
theorem claim_C4_amended_witness :
    (handleCallback samplePvpOneGames "cf_helper_cancel" 2 "" sampleInitiator 0 true).attempted
      = some ("completed_cancelled", samplePvpOneGS) :=
  (claim_C4_amended samplePvpOneGames 2 samplePvpOneSession sampleInitiator "" 0 true
    rfl rfl rfl).1

/-- C5 counterexample: the claim says every rejected action event leaves the
session's state, including its armed timer, entirely unchanged, the timer
being disarmed only on acceptance.  The handler runs
`clearTimeout(session.timeoutId)` immediately after finding the session,
before any authorization check: a cancel-offer click by a bystander is
rejected without touching the game state, yet the armed `pvp_choices` timer
is gone afterwards. -/
theorem claim_C5_counterexample :
    sampleSession.timeoutId = some "pvp_choices" ∧
    (handleCallback sampleGames "cf_helper_cancel" 1 "" sampleBystander 0 true).attempted = none ∧
    (handleCallback sampleGames "cf_helper_cancel" 1 "" sampleBystander 0 true).games
      = [(1, { sampleSession with timeoutId := none })] := by decide

/-- C5 amended: a rejection for a session that is not in memory leaves
everything unchanged; but for a session found in memory the timer is
disarmed before the authorization check, so rejected events — an
unauthorized actor, or a choice submission by an actor who already chose —
still lose the armed timer, while the game state stays untouched and no
finalize is attempted. -/
theorem claim_C5_amended (games : GameMap) (sid : Nat) (s : Session) (u : TgUser)
    (p : String) (r : Fin 3) (w : Bool) (a : String) :
    (lookupGame games sid = none →
      handleCallback games a sid p u r w
        = ⟨games, none, false, some "This game is no longer active."⟩) ∧
    (lookupGame games sid = some s → u.id ≠ s.initiator_id → some u.id ≠ s.opponent_id →
      (a = "cf_helper_cancel" ∨ a = "cf_helper_accept_bot" ∨ a = "cf_helper_accept_direct" ∨
        a = "cf_helper_decline_direct" ∨ a = "rps_helper_pvb_choice") →
      handleCallback games a sid p u r w
        = ⟨setGame games sid { s with timeoutId := none }, none, false, none⟩) ∧
    (lookupGame games sid = some s → u.id = s.initiator_id →
      ∀ c1, s.game_state_json.p1_choice = some c1 → c1 ≠ "" →
      handleCallback games "rps_helper_pvp_submit" sid p u r w
        = ⟨setGame games sid { s with timeoutId := none }, none, false,
            some "You have already made a choice."⟩) := by
  refine ⟨fun h => ?_, fun h hne hop ha => ?_, fun h hu c1 hc1 hc1ne => ?_⟩
  · simp [handleCallback, h]
  · rcases ha with rfl | rfl | rfl | rfl | rfl <;>
      simp [handleCallback, h, hne, hop, Ne.symm hne]
  · simp [handleCallback, h, hu, hc1, jsFalsy, hc1ne]

/-- Witness for the amended C5: an unauthorized cancel still disarms the
timer. -/
theorem claim_C5_amended_witness :
    handleCallback sampleGames "cf_helper_cancel" 1 "" sampleBystander 0 true
      = ⟨setGame sampleGames 1 { sampleSession with timeoutId := none }, none, false, none⟩ :=
  (claim_C5_amended sampleGames 1 sampleSession sampleBystander "" 0 true
    "cf_helper_cancel").2.1 rfl (by decide) (by decide) (Or.inl rfl)

/-- C7: in pvp mode each of the initiator and the opponent may record at
most one choice.  With `u` the initiator, `v` the designated opponent and a
non-empty submitted choice `c`: (1) the first submission from the initiator
sets `p1_choice`, is acknowledged, attempts no finalize and leaves the
status untouched; (2) a later submission by the same actor is rejected
without changing the recorded choice; (3) the submission that makes both
choice fields non-null computes the verdict and finalizes with the
corresponding terminal status — the single point at which the Outcome
Resolver runs; (4) once both choices are recorded, every further submission
by either actor is rejected without a finalize, so the verdict is computed
exactly once. -/
theorem claim_C7 (games : GameMap) (sid : Nat) (s : Session) (u v : TgUser)
    (c : String) (r : Fin 3) (w : Bool)
    (h : lookupGame games sid = some s)
    (hu : u.id = s.initiator_id)
    (hv : some v.id = s.opponent_id) (hvi : v.id ≠ s.initiator_id)
    (hc : c ≠ "") :
    (s.game_state_json.p1_choice = none → jsTruthy s.game_state_json.p2_choice = false →
      (handleCallback games "rps_helper_pvp_submit" sid c u r w).attempted = none ∧
      (handleCallback games "rps_helper_pvp_submit" sid c u r w).ack
        = some "Your choice is locked in!" ∧
      lookupGame (handleCallback games "rps_helper_pvp_submit" sid c u r w).games sid
        = some { { s with timeoutId := none } with
            game_state_json := { s.game_state_json with p1_choice := some c } }) ∧
    (∀ c1, s.game_state_json.p1_choice = some c1 → c1 ≠ "" →
      (handleCallback games "rps_helper_pvp_submit" sid c u r w).attempted = none ∧
      lookupGame (handleCallback games "rps_helper_pvp_submit" sid c u r w).games sid
        = some { s with timeoutId := none }) ∧
    (∀ c1, s.game_state_json.p1_choice = some c1 → c1 ≠ "" →
      s.game_state_json.p2_choice = none →
      (handleCallback games "rps_helper_pvp_submit" sid c v r w).attempted
        = some (pvpFinalStatus
            (determineRPSOutcome c1 c (escapeHTML s.game_state_json.initiatorName)
              (escapeHTML s.game_state_json.opponentName)).result,
            { s.game_state_json with p2_choice := some c })) ∧
    (jsTruthy s.game_state_json.p1_choice = true →
      jsTruthy s.game_state_json.p2_choice = true →
      (handleCallback games "rps_helper_pvp_submit" sid c u r w).attempted = none ∧
      (handleCallback games "rps_helper_pvp_submit" sid c v r w).attempted = none ∧
      lookupGame (handleCallback games "rps_helper_pvp_submit" sid c u r w).games sid
        = some { s with timeoutId := none }) := by
  refine ⟨fun hp1 hp2 => ?_, fun c1 hc1 hc1ne => ?_, fun c1 hc1 hc1ne hp2 => ?_,
    fun hp1 hp2 => ?_⟩
  · simp [jsTruthy, jsFalsy] at hp2
    simp [handleCallback, h, hu, hp1, jsFalsy, jsTruthy, hp2, lookupGame_setGame_self]
  · simp [handleCallback, h, hu, hc1, jsFalsy, hc1ne, lookupGame_setGame_self]
  · cases w <;>
      simp [handleCallback, h, hu, hv.symm, hvi, hc1, hp2, jsFalsy, jsTruthy, hc1ne, hc,
        finalizeAndRecordOutcome, lookupGame_setGame_self]
  · refine ⟨?_, ?_, ?_⟩
    · simp [jsTruthy, jsFalsy] at hp1
      simp [handleCallback, h, hu, jsFalsy, hp1]
    · simp [jsTruthy, jsFalsy] at hp2
      simp [handleCallback, h, hu, hv.symm, hvi, jsFalsy, hp2]
    · simp [jsTruthy, jsFalsy] at hp1
      simp [handleCallback, h, hu, jsFalsy, hp1, lookupGame_setGame_self]

/-- Witness for C7: the opponent completes a (rock, scissors) duel and the
session finalizes with the verdict-derived status. -/
theorem claim_C7_witness :
    (handleCallback samplePvpOneGames "rps_helper_pvp_submit" 2 "scissors" sampleOpponent 0
        true).attempted
      = some (pvpFinalStatus
          (determineRPSOutcome "rock" "scissors" (escapeHTML "Alice")
            (escapeHTML "Bob")).result,
          { samplePvpOneGS with p2_choice := some "scissors" }) :=
  (claim_C7 samplePvpOneGames 2 samplePvpOneSession sampleInitiator sampleOpponent "scissors" 0
    true rfl rfl rfl (by decide) (by decide)).2.2.1 "rock" rfl (by decide) rfl

/-- C9 counterexample: the claim says an out-of-set choice yields an
internal-error result that never surfaces as a win for either participant.
The resolver does return the error result, but the pvb caller's status
expression treats everything that is neither `win_player1` nor `draw` as a
bot win: submitting the out-of-set choice "banana" finalizes the session as
`completed_bot_win` — a win for the bot participant. -/
theorem claim_C9_counterexample :
    (determineRPSOutcome "banana" "rock" "Alice" "Bot").result = "error" ∧
    (handleCallback samplePvbGames "rps_helper_pvb_choice" 3 "banana" sampleInitiator 0
        true).attempted
      = some ("completed_bot_win",
          { samplePvbGS with p1_choice := some "banana", bot_choice := some "rock" }) := by
  decide

/-- C9 amended: for every input pair with a value outside the closed choice
set the resolver returns the internal-error result (and the worker does not
crash), but the callers do not fail the session closed with an error status:
the pvb status expression folds the error result into `completed_bot_win`
(a win for the bot) and the pvp status expression folds it into
`completed_push`. -/
theorem claim_C9_amended (a b n1 n2 : String)
    (h : ¬ (jsToLower a ∈ RPS_CHOICES) ∨ ¬ (jsToLower b ∈ RPS_CHOICES)) :
    (determineRPSOutcome a b n1 n2).result = "error" ∧
    pvbFinalStatus "error" = "completed_bot_win" ∧
    pvpFinalStatus "error" = "completed_push" := by
  refine ⟨?_, by decide, by decide⟩
  unfold determineRPSOutcome
  rw [if_pos h]

/-- Witness for the amended C9 at the out-of-set input "banana". -/
theorem claim_C9_amended_witness :
    (determineRPSOutcome "banana" "rock" "P1" "P2").result = "error" :=
  (claim_C9_amended "banana" "rock" "P1" "P2" (Or.inl (by decide))).1

/-- C8: the claim performs one conditional update inside a transaction.
When it affects zero rows the claim is a silent no-op — the transaction is
rolled back, nothing is retried and neither the table nor the in-memory map
changes.  When it affects exactly one row the transaction commits, the row
is loaded into the in-memory session table, and the session enters offer
mode when the opponent field is unset, or direct-challenge mode when an
opponent is already fixed. -/
theorem claim_C8 (db : List DbRow) (games : GameMap) (botId gameId : String) :
    ((claimUpdate db botId gameId).2 = [] →
      handleNewGameSession db games botId gameId = (db, games)) ∧
    (∀ row, (claimUpdate db botId gameId).2 = [row] →
      (handleNewGameSession db games botId gameId).1 = (claimUpdate db botId gameId).1 ∧
      (row.opponent_id = none →
        lookupGame (handleNewGameSession db games botId gameId).2 row.session_id
          = some { { rowToSession row with timeoutId := some "offer" } with
              game_state_json := { row.game_state_json with
                status := "awaiting_offer_response" } }) ∧
      (∀ oid, row.opponent_id = some oid →
        lookupGame (handleNewGameSession db games botId gameId).2 row.session_id
          = some { rowToSession row with
              game_state_json := { row.game_state_json with
                status := "awaiting_direct_response" } })) := by
  constructor
  · intro hempty
    simp [handleNewGameSession, hempty]
  · intro row hone
    have h1 : (handleNewGameSession db games botId gameId).1 = (claimUpdate db botId gameId).1 := by
      cases hop : row.opponent_id <;>
        simp [handleNewGameSession, hone, rowToSession, hop]
    refine ⟨h1, fun hop => ?_, fun oid hop => ?_⟩ <;>
      simp [handleNewGameSession, hone, rowToSession, hop, runUnifiedOffer,
        runDirectChallenge, lookupGame_setGame_self]

/-- Witness for C8: claiming the sample pending row with no fixed opponent
loads it into memory in offer mode with the offer timer armed. -/
theorem claim_C8_witness :
    lookupGame (handleNewGameSession sampleDb [] "BOT7" "G1").2 7
      = some { { sampleClaimedSession with timeoutId := some "offer" } with
          game_state_json := { sampleOfferGS with status := "awaiting_offer_response" } } :=
  ((claim_C8 sampleDb [] "BOT7" "G1").2 sampleClaimedRow (by decide)).2.1 rfl
